import Mathlib

/-!
Shallow embedding of the x-scraper repository (src/get_followers.py and
src/add_account.py): the paginated follower collector, the batch
orchestrator, the CLI dispatch, and the credential-file loader.  External
twscrape behaviour (user lookup, page fetching, the account pool) is
supplied through an explicit environment or, where the repository only
calls into the library, modelled from the specification.
-/

/-- One follower record as returned by the platform (the attributes of a
twscrape user object that `get_followers` reads). -/
structure Follower where
  username : String
  displayname : String
  id : Nat
  followersCount : Nat
  friendsCount : Nat
  statusesCount : Nat
  verified : Bool
  created : String
  rawDescription : String
  deriving DecidableEq, Repr

/-- The target user object returned by `api.user_by_login`. -/
structure UserInfo where
  username : String
  displayname : String
  id : Nat
  followersCount : Nat
  friendsCount : Nat
  statusesCount : Nat
  deriving DecidableEq, Repr

/-- The external world as seen by `get_followers`: `user_by_login` resolves a
username (raising = `Except.error`), `available` gives the full follower list
of a user id (an error models a fetch failure or pool exhaustion raised by
twscrape), and `now`/`nowStamp` are the wall-clock strings used for the
`timestamp` field and the filename timestamp suffix. -/
structure Env where
  user_by_login : String → Except String UserInfo
  available : Nat → Except String (List Follower)
  now : String
  nowStamp : String

/-- The processed per-follower dictionary built in the loop
`for i, follower in enumerate(followers, 1)` of `get_followers`. -/
structure FollowerData where
  rank : Nat
  username : String
  display_name : String
  user_id : Nat
  followers : Nat
  following : Nat
  tweets : Nat
  verified : Bool
  created_at : String
  description : String
  deriving DecidableEq, Repr

/-- The per-target result dictionary returned by `get_followers` (both the
success return and the `except` return use exactly these keys). -/
structure RunSummary where
  username : String
  display_name : String
  total_followers : Nat
  fetched_count : Nat
  timestamp : String
  status : String
  json_file : Option String
  csv_file : Option String
  deriving DecidableEq, Repr

/-- The keys of the summary dictionary, in the insertion order of the dict
literal in `get_followers` (this order is what `csv.DictWriter` receives as
`fieldnames=all_results[0].keys()` when the summary file is written). -/
def summaryKeys : List String :=
  ["username", "display_name", "total_followers", "fetched_count",
   "timestamp", "status", "json_file", "csv_file"]

/-- `fetch_limit = None if limit <= 0 else limit` in `get_followers`. -/
def fetch_limit (limit : Int) : Option Nat :=
  if limit ≤ 0 then none else some limit.toNat

/-- Modelled from the spec: the call
`gather(api.followers(user.id, limit=fetch_limit))` runs inside the twscrape
library, which is not part of this repository.  Per the specification the
collection loop appends pages in platform order and terminates when the
cursor is terminal or, when bounded, when the collected length reaches the
limit; so a bounded limit yields the first `limit` available followers and an
unbounded (`none`) limit yields all of them. -/
def gather (available : List Follower) : Option Nat → List Follower
  | none => available
  | some l => available.take l

/-- The dictionary built for one follower at 1-based rank `i`. -/
def follower_data (i : Nat) (follower : Follower) : FollowerData :=
  { rank := i
    username := follower.username
    display_name := follower.displayname
    user_id := follower.id
    followers := follower.followersCount
    following := follower.friendsCount
    tweets := follower.statusesCount
    verified := follower.verified
    created_at := follower.created
    description := follower.rawDescription }

/-- The processing loop `for i, follower in enumerate(followers, 1)` of
`get_followers`, building the `results` list. -/
def processFollowers : Nat → List Follower → List FollowerData
  | _, [] => []
  | i, follower :: rest => follower_data i follower :: processFollowers (i + 1) rest

/-- What one call to `get_followers` returns and writes: the returned summary
dictionary, the processed `results` list (embedded in the JSON artifact), and
the JSON/CSV files actually written (`none` when the write is skipped or the
`except` branch is taken before any write). -/
structure CollectResult where
  summary : RunSummary
  results : List FollowerData
  jsonWritten : Option String
  csvWritten : Option String
  deriving DecidableEq, Repr

/-- The summary dictionary returned by the `except` branch of
`get_followers`. -/
def errorSummary (username : String) (e : String) (now : String) : RunSummary :=
  { username := username
    display_name := "N/A"
    total_followers := 0
    fetched_count := 0
    timestamp := now
    status := "error: " ++ e
    json_file := none
    csv_file := none }

/-- `get_followers(username, limit, use_timestamp, use_proxy)` from
src/get_followers.py: look the user up, fetch up to `fetch_limit` followers,
build the ranked `results`, write the JSON artifact always and the CSV
artifact only when `results` is non-empty, and return the summary dict; any
exception from lookup or fetch is caught and turned into an error summary
with nothing written. -/
def get_followers (env : Env) (username : String) (limit : Int)
    (use_timestamp use_proxy : Bool) : CollectResult :=
  match env.user_by_login username with
  | Except.error e =>
    { summary := errorSummary username e env.now
      results := []
      jsonWritten := none
      csvWritten := none }
  | Except.ok user =>
    match env.available user.id with
    | Except.error e =>
      { summary := errorSummary username e env.now
        results := []
        jsonWritten := none
        csvWritten := none }
    | Except.ok avail =>
      let followers := gather avail (fetch_limit limit)
      let results := processFollowers 1 followers
      let timestamp_str := if use_timestamp then "_" ++ env.nowStamp else ""
      let base_filename := "followers_" ++ username ++ timestamp_str
      let json_file := base_filename ++ ".json"
      let csv_file := base_filename ++ ".csv"
      { summary :=
          { username := username
            display_name := user.displayname
            total_followers := user.followersCount
            fetched_count := followers.length
            timestamp := env.now
            status := "success"
            json_file := some json_file
            csv_file := some csv_file }
        results := results
        jsonWritten := some json_file
        csvWritten := if results.isEmpty then none else some csv_file }

/-- Observable events of the batch loop: one collection per target and the
`await asyncio.sleep(2)` pauses between targets. -/
inductive Event where
  | collect (username : String)
  | sleep
  deriving DecidableEq, Repr

/-- The loop body of `get_followers_multiple`:
`for i, username in enumerate(usernames, 1)` collects the target, appends its
summary to `all_results`, and sleeps 2 seconds afterwards exactly when
`i < len(usernames)`.  `n` is `len(usernames)`; the result is
(`all_results`, event trace). -/
def multiLoop (env : Env) (limit : Int) (use_timestamp use_proxy : Bool)
    (n : Nat) : Nat → List String → List RunSummary × List Event
  | _, [] => ([], [])
  | i, username :: rest =>
    let result := get_followers env username limit use_timestamp use_proxy
    let next := multiLoop env limit use_timestamp use_proxy n (i + 1) rest
    (result.summary :: next.1,
     Event.collect username :: ((if i < n then [Event.sleep] else []) ++ next.2))

/-- What `get_followers_multiple` produces: the ordered `all_results` list,
the event trace of the loop, and the summary CSV file it writes. -/
structure MultiResult where
  all_results : List RunSummary
  events : List Event
  summary_file : String
  deriving DecidableEq, Repr

/-- `get_followers_multiple(usernames, limit, use_timestamp, use_proxy)` from
src/get_followers.py: run the loop over all targets, then write the summary
CSV whose fieldnames are `all_results[0].keys()` — an indexing that raises
`IndexError` when `usernames` (hence `all_results`) is empty. -/
def get_followers_multiple (env : Env) (usernames : List String) (limit : Int)
    (use_timestamp use_proxy : Bool) : Except String MultiResult :=
  let r := multiLoop env limit use_timestamp use_proxy usernames.length 1 usernames
  match r.1 with
  | [] => Except.error "IndexError: list index out of range"
  | _ :: _ =>
    Except.ok
      { all_results := r.1
        events := r.2
        summary_file :=
          "followers_summary" ++ (if use_timestamp then "_" ++ env.nowStamp else "")
            ++ ".csv" }

/-- What one CLI run produces: the per-target summaries in output order and
the aggregate summary artifact, when one is written. -/
structure MainResult where
  summaries : List RunSummary
  summary_file : Option String
  deriving DecidableEq, Repr

namespace cli

/-- `main()` from src/get_followers.py after argument parsing: argparse
rejects an empty target list (`nargs="+"`); with exactly one username it runs
`get_followers` directly (no summary artifact); with more it runs
`get_followers_multiple`. -/
def main (env : Env) (usernames : List String) (limit : Int)
    (use_timestamp use_proxy : Bool) : Except String MainResult :=
  match usernames with
  | [] => Except.error "usage: the following arguments are required: usernames"
  | [username] =>
    let r := get_followers env username limit use_timestamp use_proxy
    Except.ok { summaries := [r.summary], summary_file := none }
  | _ =>
    match get_followers_multiple env usernames limit use_timestamp use_proxy with
    | Except.error e => Except.error e
    | Except.ok m =>
      Except.ok { summaries := m.all_results, summary_file := some m.summary_file }

end cli

/-- The argparse default of `--limit` in `main` (`default=0`). -/
def default_limit : Int := 0

/-- One record of the twscrape account pool as `add_account` stores it:
`add_account(username, password, email, email_password, cookies)`. -/
structure PoolAccount where
  username : String
  password : String
  email : String
  email_password : String
  cookies : String
  deriving DecidableEq, Repr

/-- Modelled from the spec: `api.pool.delete_accounts(username)` is twscrape
library code, not part of this repository; per the specification the store's
remove operation deletes the record for that username if present and is a
no-op when absent. -/
def delete_accounts (pool : List PoolAccount) (username : String) : List PoolAccount :=
  pool.filter (fun a => a.username != username)

/-- Modelled from the spec: `api.pool.add_account(...)` is twscrape library
code, not part of this repository; per the specification the durable-store
collaborator persists the new record (`save(Account)`); no keying or
deduplication is assumed of it, so replace semantics must come from the
caller. -/
def pool_add_account (pool : List PoolAccount)
    (username password email email_password cookies : String) : List PoolAccount :=
  pool ++ [{ username := username, password := password, email := email,
             email_password := email_password, cookies := cookies }]

/-- `add_account_with_cookies(username, cookies)` from src/add_account.py:
delete any existing account with this username (errors ignored), then add the
account with empty password/email placeholders. -/
def add_account_with_cookies (pool : List PoolAccount)
    (username cookies : String) : List PoolAccount :=
  let password := ""
  let email := ""
  let email_password := ""
  pool_add_account (delete_accounts pool username)
    username password email email_password cookies

/-- Helper for `py_split`: accumulate characters of the current field
(reversed in `acc`), emitting a field at each separator. -/
def py_split_aux (sep : Char) : List Char → List Char → List String
  | [], acc => [String.mk acc.reverse]
  | c :: rest, acc =>
    if c = sep then String.mk acc.reverse :: py_split_aux sep rest []
    else py_split_aux sep rest (c :: acc)

/-- Python's `str.split(sep)` for a one-character separator: every occurrence
of `sep` separates two fields, so `"a:b"` gives two fields, `""` gives one
empty field, and `":"` gives two empty fields. -/
def py_split (s : String) (sep : Char) : List String :=
  py_split_aux sep s.data []

/-- Python's `str.strip()`: remove leading and trailing whitespace. -/
def py_strip (s : String) : String :=
  String.mk (((s.data.dropWhile Char.isWhitespace).reverse.dropWhile
    Char.isWhitespace).reverse)

/-- `username, auth_token, ct0 = line.split(":")` in `add_all_from_file`:
succeeds exactly when the split yields three fields, otherwise the
`ValueError` is caught and the line is skipped. -/
def parseLine (line : String) : Option (String × String × String) :=
  match py_split line ':' with
  | [username, auth_token, ct0] => some (username, auth_token, ct0)
  | _ => none

/-- The `for line in lines` loop of `add_all_from_file`: each well-formed
line contributes one `add_account_with_cookies(username, cookies)` call with
`cookies = "auth_token=<token>; ct0=<ct0>"`; malformed lines are skipped. -/
def processLines : List String → List (String × String)
  | [] => []
  | line :: rest =>
    match parseLine line with
    | some (username, auth_token, ct0) =>
      (username, "auth_token=" ++ auth_token ++ "; ct0=" ++ ct0) :: processLines rest
    | none => processLines rest

/-- `add_all_from_file(filepath)` from src/add_account.py, as a function of
the file's raw lines: `lines = [line.strip() for line in f if line.strip()]`
keeps the stripped non-blank lines, then the loop processes each; the result
is the ordered list of (username, cookies) account additions performed. -/
def add_all_from_file (lines : List String) : List (String × String) :=
  processLines ((lines.map py_strip).filter (fun l => l != ""))

/-- A concrete follower for test environments. -/
def f1 : Follower :=
  { username := "u1", displayname := "U One", id := 11, followersCount := 5,
    friendsCount := 6, statusesCount := 7, verified := false,
    created := "2020-01-01", rawDescription := "d1" }

/-- A concrete follower for test environments. -/
def f2 : Follower :=
  { username := "u2", displayname := "U Two", id := 12, followersCount := 8,
    friendsCount := 9, statusesCount := 10, verified := true,
    created := "2021-02-02", rawDescription := "d2" }

/-- A concrete follower for test environments. -/
def f3 : Follower :=
  { username := "u3", displayname := "U Three", id := 13, followersCount := 1,
    friendsCount := 2, statusesCount := 3, verified := false,
    created := "2022-03-03", rawDescription := "d3" }

/-- A target that exists and has three followers. -/
def userAlice : UserInfo :=
  { username := "alice", displayname := "Alice", id := 1,
    followersCount := 3, friendsCount := 10, statusesCount := 100 }

/-- A target that exists and has zero followers. -/
def userBob : UserInfo :=
  { username := "bob", displayname := "Bob", id := 2,
    followersCount := 0, friendsCount := 1, statusesCount := 2 }

/-- A concrete environment: "alice" resolves with followers [f1, f2, f3],
"bob" resolves with no followers, every other lookup fails. -/
def envA : Env :=
  { user_by_login := fun u =>
      if u = "alice" then Except.ok userAlice
      else if u = "bob" then Except.ok userBob
      else Except.error "user not found"
    available := fun uid => if uid = 1 then Except.ok [f1, f2, f3] else Except.ok []
    now := "T"
    nowStamp := "S" }

/-- The summary that a run of `get_followers` against `envA` for "alice" in
overwrite mode produces (the requested limit does not occur in it). -/
def aliceSummary : RunSummary :=
  { username := "alice"
    display_name := "Alice"
    total_followers := 3
    fetched_count := 3
    timestamp := "T"
    status := "success"
    json_file := some "followers_alice.json"
    csv_file := some "followers_alice.csv" }

/-- The summary that a run of `get_followers` against `envA` for "bob" (zero
followers) in overwrite mode produces. -/
def bobSummary : RunSummary :=
  { username := "bob"
    display_name := "Bob"
    total_followers := 0
    fetched_count := 0
    timestamp := "T"
    status := "success"
    json_file := some "followers_bob.json"
    csv_file := some "followers_bob.csv" }

/-! Helper lemmas about the loop bodies. -/

theorem multiLoop_fst (env : Env) (limit : Int) (ts up : Bool) (n : Nat) :
    ∀ (usernames : List String) (i : Nat),
      (multiLoop env limit ts up n i usernames).1
        = usernames.map (fun u => (get_followers env u limit ts up).summary) := by
  intro usernames
  induction usernames with
  | nil => intro i; rfl
  | cons u rest ih => intro i; simp [multiLoop, ih (i + 1)]

theorem multiLoop_snd (env : Env) (limit : Int) (ts up : Bool) (n : Nat) :
    ∀ (usernames : List String) (i : Nat), i + usernames.length = n + 1 →
      (multiLoop env limit ts up n i usernames).2
        = List.intersperse Event.sleep (usernames.map Event.collect) := by
  intro usernames
  induction usernames with
  | nil => intro i _; rfl
  | cons u rest ih =>
    intro i hi
    cases rest with
    | nil =>
      have hn : ¬ i < n := by simp at hi; omega
      simp [multiLoop, hn, List.intersperse]
    | cons v rest2 =>
      have hlt : i < n := by simp at hi; omega
      have ih2 := ih (i + 1) (by simp at hi ⊢; omega)
      simp only [multiLoop, hlt, if_true, List.map_cons, List.intersperse] at ih2 ⊢
      simp [ih2]

theorem gfm_ok (env : Env) (limit : Int) (ts up : Bool) (u : String)
    (rest : List String) :
    get_followers_multiple env (u :: rest) limit ts up = Except.ok
      { all_results := (u :: rest).map (fun v => (get_followers env v limit ts up).summary)
        events := List.intersperse Event.sleep ((u :: rest).map Event.collect)
        summary_file :=
          "followers_summary" ++ (if ts then "_" ++ env.nowStamp else "") ++ ".csv" } := by
  have h1 := multiLoop_fst env limit ts up (u :: rest).length (u :: rest) 1
  have h2 := multiLoop_snd env limit ts up (u :: rest).length (u :: rest) 1
    (by simp; omega)
  simp only [get_followers_multiple, multiLoop, List.map_cons] at h1 h2 ⊢
  rw [h1, h2]

theorem processFollowers_map_rank :
    ∀ (fs : List Follower) (i : Nat),
      (processFollowers i fs).map FollowerData.rank = List.range' i fs.length := by
  intro fs
  induction fs with
  | nil => intro i; rfl
  | cons f rest ih =>
    intro i
    simp [processFollowers, follower_data, ih (i + 1), List.range'_succ]

theorem processFollowers_length :
    ∀ (fs : List Follower) (i : Nat), (processFollowers i fs).length = fs.length := by
  intro fs
  induction fs with
  | nil => intro i; rfl
  | cons f rest ih => intro i; simp [processFollowers, ih (i + 1)]

theorem processFollowers_map_username :
    ∀ (fs : List Follower) (i : Nat),
      (processFollowers i fs).map FollowerData.username = fs.map Follower.username := by
  intro fs
  induction fs with
  | nil => intro i; rfl
  | cons f rest ih => intro i; simp [processFollowers, follower_data, ih (i + 1)]

theorem gather_nil : ∀ o : Option Nat, gather [] o = [] := by
  intro o; cases o <;> simp [gather]

theorem processLines_append :
    ∀ xs ys : List String,
      processLines (xs ++ ys) = processLines xs ++ processLines ys := by
  intro xs ys
  induction xs with
  | nil => rfl
  | cons line rest ih =>
    cases h : parseLine line with
    | none => simp [processLines, h, ih]
    | some t =>
      obtain ⟨u, a, c⟩ := t
      simp [processLines, h, ih]

theorem processLines_eq_filterMap :
    ∀ lines : List String,
      processLines lines = lines.filterMap (fun line => (parseLine line).map
        (fun t => (t.1, "auth_token=" ++ t.2.1 ++ "; ct0=" ++ t.2.2))) := by
  intro lines
  induction lines with
  | nil => rfl
  | cons line rest ih =>
    cases h : parseLine line with
    | none => simp [processLines, h, ih]
    | some t =>
      obtain ⟨u, a, c⟩ := t
      simp [processLines, h, ih]

theorem delete_then_filter_eq (u : String) :
    ∀ pool : List PoolAccount,
      List.filter (fun a => a.username == u) (delete_accounts pool u) = [] := by
  intro pool
  induction pool with
  | nil => rfl
  | cons a rest ih =>
    unfold delete_accounts at ih ⊢
    by_cases h : a.username = u <;> simp [List.filter_cons, h, ih]

theorem delete_accounts_filter_rec (u c : String) :
    delete_accounts [PoolAccount.mk u "" "" "" c] u = [] := by
  simp [delete_accounts]

/-! Claim theorems. -/

/-- Claim C1: batch failure isolation — for every environment and every
non-empty target list, the batch run completes (no exception escapes) and
produces exactly one summary per target in input order, where a per-target
lookup failure or fetch/pool failure is caught inside that target's
collection and recorded in its summary status instead of aborting the
remaining targets. -/
theorem batch_failure_isolation (env : Env) (usernames : List String)
    (limit : Int) (ts up : Bool) (hne : usernames ≠ []) :
    (get_followers_multiple env usernames limit ts up).toOption.map
        MultiResult.all_results
      = some (usernames.map (fun u => (get_followers env u limit ts up).summary)) ∧
    (∀ u e, env.user_by_login u = Except.error e →
      (get_followers env u limit ts up).summary.status = "error: " ++ e) ∧
    (∀ u user e, env.user_by_login u = Except.ok user →
      env.available user.id = Except.error e →
      (get_followers env u limit ts up).summary.status = "error: " ++ e) := by
  obtain ⟨u, rest, rfl⟩ := List.exists_cons_of_ne_nil hne
  refine ⟨?_, ?_, ?_⟩
  · rw [gfm_ok]; rfl
  · intro v e he
    simp [get_followers, he, errorSummary]
  · intro v user e hu ha
    simp [get_followers, hu, ha, errorSummary]

/-- Witness for C1 at the concrete environment `envA` with one resolvable
target and one failing target. -/
theorem batch_failure_isolation_witness :
    (["alice", "ghost"] : List String) ≠ [] ∧
    (get_followers_multiple envA ["alice", "ghost"] 0 false false).toOption.map
        MultiResult.all_results
      = some (["alice", "ghost"].map (fun u => (get_followers envA u 0 false false).summary)) :=
  ⟨by decide,
   (batch_failure_isolation envA ["alice", "ghost"] 0 false false (by decide)).1⟩

/-- Claim C2: limit semantics — the fetch is unbounded exactly when
`limit <= 0` (the computed twscrape limit is `None`), in which case all
available followers are fetched; for `limit > 0` exactly
`min limit available` followers are fetched, i.e. the fetch is capped at
`limit`. -/
theorem limit_semantics (env : Env) (username : String) (limit : Int)
    (ts up : Bool) (user : UserInfo) (avail : List Follower)
    (hu : env.user_by_login username = Except.ok user)
    (ha : env.available user.id = Except.ok avail) :
    (fetch_limit limit = none ↔ limit ≤ 0) ∧
    (limit ≤ 0 →
      (get_followers env username limit ts up).summary.fetched_count = avail.length) ∧
    (0 < limit →
      (get_followers env username limit ts up).summary.fetched_count
        = min limit.toNat avail.length) := by
  refine ⟨?_, ?_, ?_⟩
  · unfold fetch_limit
    by_cases h : limit ≤ 0 <;> simp [h]
  · intro h
    simp [get_followers, hu, ha, fetch_limit, h, gather]
  · intro h
    have h0 : ¬ limit ≤ 0 := by omega
    simp [get_followers, hu, ha, fetch_limit, h0, gather]

/-- Witness for C2 at `envA`: requesting 2 of alice's 3 followers fetches
exactly 2 = min 2 3. -/
theorem limit_semantics_witness :
    envA.user_by_login "alice" = Except.ok userAlice ∧
    envA.available userAlice.id = Except.ok [f1, f2, f3] ∧
    (get_followers envA "alice" 2 false false).summary.fetched_count
      = min (Int.toNat 2) [f1, f2, f3].length :=
  ⟨rfl, rfl,
   (limit_semantics envA "alice" 2 false false userAlice [f1, f2, f3]
      rfl rfl).2.2 (by decide)⟩

/-- Claim C7: inter-target cooldown — the event trace of a batch run is
exactly the per-target collections interleaved with one sleep between every
consecutive pair of targets; the trace does not depend on whether any
collection succeeded or failed (the environment is universally quantified and
absent from the right-hand side). -/
theorem inter_target_cooldown (env : Env) (usernames : List String)
    (limit : Int) (ts up : Bool) (hne : usernames ≠ []) :
    (get_followers_multiple env usernames limit ts up).toOption.map
        MultiResult.events
      = some (List.intersperse Event.sleep (usernames.map Event.collect)) := by
  obtain ⟨u, rest, rfl⟩ := List.exists_cons_of_ne_nil hne
  rw [gfm_ok]
  rfl

/-- Witness for C7 at `envA` with two targets. -/
theorem inter_target_cooldown_witness :
    (["alice", "bob"] : List String) ≠ [] ∧
    (get_followers_multiple envA ["alice", "bob"] 0 false false).toOption.map
        MultiResult.events
      = some (List.intersperse Event.sleep (["alice", "bob"].map Event.collect)) :=
  ⟨by decide, inter_target_cooldown envA ["alice", "bob"] 0 false false (by decide)⟩

/-- Claim C8: CLI default cap — the argparse default of `--limit` is 0, which
lies in the unbounded range `limit <= 0`: it maps to the twscrape limit
`None` and fetches all available followers. -/
theorem default_limit_unbounded :
    default_limit = 0 ∧ default_limit ≤ 0 ∧ fetch_limit default_limit = none ∧
    ∀ avail : List Follower, gather avail (fetch_limit default_limit) = avail := by
  refine ⟨rfl, by decide, by decide, ?_⟩
  intro avail
  rfl

/-- Counterexample to C3 as stated: a CLI run over the one-target list
["alice"] succeeds, emits alice's summary, but writes no aggregate summary
artifact (`summary_file = none`), because `main` routes a single target
directly to `get_followers`, which never writes the summary CSV. -/
theorem single_target_no_aggregate_summary :
    cli.main envA ["alice"] 0 false false =
      Except.ok { summaries := [aliceSummary], summary_file := none } := rfl

/-- Amended C3: one summary entry per target in input order always; the
single aggregate summary artifact is written exactly when the input list has
two or more targets (with one target, `main` performs a plain single-target
collection and no aggregate artifact is written). -/
theorem ordered_summaries_and_aggregate (env : Env) (usernames : List String)
    (limit : Int) (ts up : Bool) (h2 : 2 ≤ usernames.length) :
    cli.main env usernames limit ts up = Except.ok
      { summaries := usernames.map (fun u => (get_followers env u limit ts up).summary)
        summary_file :=
          some ("followers_summary" ++ (if ts then "_" ++ env.nowStamp else "")
            ++ ".csv") } := by
  match usernames, h2 with
  | u :: v :: rest, _ =>
    show ((match get_followers_multiple env (u :: v :: rest) limit ts up with
      | Except.error e => Except.error e
      | Except.ok m =>
        Except.ok { summaries := m.all_results, summary_file := some m.summary_file }) :
          Except String MainResult) = _
    rw [gfm_ok]

/-- Witness for the amended C3 at `envA` with two targets. -/
theorem ordered_summaries_and_aggregate_witness :
    2 ≤ (["alice", "bob"] : List String).length ∧
    cli.main envA ["alice", "bob"] 0 false false = Except.ok
      { summaries := ["alice", "bob"].map (fun u => (get_followers envA u 0 false false).summary)
        summary_file :=
          some ("followers_summary" ++ (if false then "_" ++ envA.nowStamp else "")
            ++ ".csv") } :=
  ⟨by decide, ordered_summaries_and_aggregate envA ["alice", "bob"] 0 false false (by decide)⟩

/-- Counterexample to C4 as stated: the summary record carries no
`requested_limit` field — `summaryKeys` (the dict keys, which become the CSV
fieldnames) does not contain it, and the concrete summary of a run requested
with limit 7 is `aliceSummary`, a record in which the requested limit 7
appears nowhere. -/
theorem summary_lacks_requested_limit :
    "requested_limit" ∉ summaryKeys ∧
    (get_followers envA "alice" 7 false false).summary = aliceSummary :=
  ⟨by decide, by decide⟩

/-- Amended C4: every per-target summary record has exactly the fields
username (the target), display_name, total_followers, fetched_count,
timestamp, status and the two artifact paths — the requested limit is not
recorded; status is the literal "success" or a string of the form
"error: <reason>"; the success and error summaries are fully determined by
the lookup and fetch outcomes (and, being values, are never mutated after
being appended). -/
theorem summary_record_shape (env : Env) (username : String) (limit : Int)
    (ts up : Bool) :
    "requested_limit" ∉ summaryKeys ∧
    (∀ user avail, env.user_by_login username = Except.ok user →
      env.available user.id = Except.ok avail →
      (get_followers env username limit ts up).summary =
        { username := username
          display_name := user.displayname
          total_followers := user.followersCount
          fetched_count := (gather avail (fetch_limit limit)).length
          timestamp := env.now
          status := "success"
          json_file := some ("followers_" ++ username
            ++ (if ts then "_" ++ env.nowStamp else "") ++ ".json")
          csv_file := some ("followers_" ++ username
            ++ (if ts then "_" ++ env.nowStamp else "") ++ ".csv") }) ∧
    (∀ e, env.user_by_login username = Except.error e →
      (get_followers env username limit ts up).summary
        = errorSummary username e env.now) ∧
    (∀ user e, env.user_by_login username = Except.ok user →
      env.available user.id = Except.error e →
      (get_followers env username limit ts up).summary
        = errorSummary username e env.now) ∧
    ((get_followers env username limit ts up).summary.status = "success" ∨
      ∃ e, (get_followers env username limit ts up).summary.status = "error: " ++ e) := by
  refine ⟨by decide, ?_, ?_, ?_, ?_⟩
  · intro user avail hu ha
    simp [get_followers, hu, ha]
  · intro e he
    simp [get_followers, he]
  · intro user e hu ha
    simp [get_followers, hu, ha]
  · cases hu : env.user_by_login username with
    | error e => right; exact ⟨e, by simp [get_followers, hu, errorSummary]⟩
    | ok user =>
      cases ha : env.available user.id with
      | error e => right; exact ⟨e, by simp [get_followers, hu, ha, errorSummary]⟩
      | ok avail => left; simp [get_followers, hu, ha]

/-- Witness for the amended C4 at `envA`: the success-shape clause evaluated
for alice. -/
theorem summary_record_shape_witness :
    envA.user_by_login "alice" = Except.ok userAlice ∧
    envA.available userAlice.id = Except.ok [f1, f2, f3] ∧
    (get_followers envA "alice" 0 false false).summary =
      { username := "alice"
        display_name := userAlice.displayname
        total_followers := userAlice.followersCount
        fetched_count := (gather [f1, f2, f3] (fetch_limit 0)).length
        timestamp := envA.now
        status := "success"
        json_file := some ("followers_" ++ "alice"
          ++ (if false then "_" ++ envA.nowStamp else "") ++ ".json")
        csv_file := some ("followers_" ++ "alice"
          ++ (if false then "_" ++ envA.nowStamp else "") ++ ".csv") } :=
  ⟨rfl, rfl,
   (summary_record_shape envA "alice" 0 false false).2.1 userAlice [f1, f2, f3] rfl rfl⟩

/-- Counterexample to C5 as stated: for "bob", who exists with zero
followers, the collection is a success with fetched_count 0 and the JSON
artifact is written, but the CSV artifact is NOT produced (the code guards
the CSV write with `if results:`). -/
theorem zero_followers_csv_skipped :
    (get_followers envA "bob" 0 false false).summary.status = "success" ∧
    (get_followers envA "bob" 0 false false).summary.fetched_count = 0 ∧
    (get_followers envA "bob" 0 false false).jsonWritten = some "followers_bob.json" ∧
    (get_followers envA "bob" 0 false false).csvWritten = none := by decide

/-- Amended C5: a target that exists but has zero followers yields a summary
with status "success" and fetched_count 0 (not an error), and the JSON
artifact is still produced; the CSV artifact, however, is skipped because the
results list is empty. -/
theorem zero_followers_success (env : Env) (username : String) (limit : Int)
    (ts up : Bool) (user : UserInfo)
    (hu : env.user_by_login username = Except.ok user)
    (ha : env.available user.id = Except.ok []) :
    (get_followers env username limit ts up).summary.status = "success" ∧
    (get_followers env username limit ts up).summary.fetched_count = 0 ∧
    (get_followers env username limit ts up).jsonWritten =
      some ("followers_" ++ username
        ++ (if ts then "_" ++ env.nowStamp else "") ++ ".json") ∧
    (get_followers env username limit ts up).csvWritten = none := by
  have hg := gather_nil (fetch_limit limit)
  refine ⟨?_, ?_, ?_, ?_⟩ <;> simp [get_followers, hu, ha, hg, processFollowers]

/-- Witness for the amended C5 at `envA` with target "bob". -/
theorem zero_followers_success_witness :
    envA.user_by_login "bob" = Except.ok userBob ∧
    envA.available userBob.id = Except.ok [] ∧
    ((get_followers envA "bob" 0 false false).summary.status = "success" ∧
     (get_followers envA "bob" 0 false false).summary.fetched_count = 0 ∧
     (get_followers envA "bob" 0 false false).jsonWritten =
       some ("followers_" ++ "bob"
         ++ (if false then "_" ++ envA.nowStamp else "") ++ ".json") ∧
     (get_followers envA "bob" 0 false false).csvWritten = none) :=
  ⟨rfl, rfl, zero_followers_success envA "bob" 0 false false userBob rfl rfl⟩

/-- Claim C6: add is idempotent replace keyed by username — adding an account
deletes any prior record with that username and appends the new one, so
adding the same record twice equals adding it once, the resulting pool holds
exactly one record with that username, and username-uniqueness of the pool is
preserved. -/
theorem add_account_idempotent_replace (pool : List PoolAccount)
    (username cookies : String) :
    add_account_with_cookies (add_account_with_cookies pool username cookies)
        username cookies
      = add_account_with_cookies pool username cookies ∧
    ((add_account_with_cookies pool username cookies).filter
        (fun a => a.username == username)).length = 1 ∧
    ((pool.map PoolAccount.username).Nodup →
      ((add_account_with_cookies pool username cookies).map PoolAccount.username).Nodup) := by
  refine ⟨?_, ?_, ?_⟩
  · simp only [add_account_with_cookies, pool_add_account, delete_accounts]
    rw [List.filter_append, List.filter_filter]
    simp
  · simp only [add_account_with_cookies, pool_add_account]
    rw [List.filter_append, delete_then_filter_eq]
    simp
  · intro hnd
    simp only [add_account_with_cookies, pool_add_account]
    rw [List.map_append, List.nodup_append]
    refine ⟨?_, by simp, ?_⟩
    · exact List.Nodup.sublist ((List.filter_sublist _).map _) hnd
    · intro x hx hy
      simp only [List.map_cons, List.map_nil, List.mem_singleton] at hy
      subst hy
      simp only [delete_accounts, List.mem_map, List.mem_filter] at hx
      obtain ⟨a, ⟨ha, hne⟩, hxx⟩ := hx
      rw [hxx] at hne
      simp at hne

/-- Witness for C6 on the empty pool. -/
theorem add_account_idempotent_replace_witness :
    (([] : List PoolAccount).map PoolAccount.username).Nodup ∧
    ((add_account_with_cookies [] "a" "t").map PoolAccount.username).Nodup ∧
    ((add_account_with_cookies [] "a" "t").filter
        (fun a => a.username == "a")).length = 1 ∧
    add_account_with_cookies (add_account_with_cookies [] "a" "t") "a" "t"
      = add_account_with_cookies [] "a" "t" :=
  ⟨by decide,
   (add_account_idempotent_replace [] "a" "t").2.2 (by decide),
   (add_account_idempotent_replace [] "a" "t").2.1,
   (add_account_idempotent_replace [] "a" "t").1⟩

/-- Claim C9: follower ranking — in a successful per-target result the
processed records carry ranks 1, 2, ..., n in exactly the platform-returned
order (their usernames coincide positionally with the fetched followers), and
the number of processed records equals the fetched count. -/
theorem follower_ranks (env : Env) (username : String) (limit : Int)
    (ts up : Bool) (user : UserInfo) (avail : List Follower)
    (hu : env.user_by_login username = Except.ok user)
    (ha : env.available user.id = Except.ok avail) :
    (get_followers env username limit ts up).results.map FollowerData.rank
      = List.range' 1 (get_followers env username limit ts up).summary.fetched_count ∧
    (get_followers env username limit ts up).results.length
      = (get_followers env username limit ts up).summary.fetched_count ∧
    (get_followers env username limit ts up).results.map FollowerData.username
      = (gather avail (fetch_limit limit)).map Follower.username := by
  refine ⟨?_, ?_, ?_⟩ <;>
    simp [get_followers, hu, ha, processFollowers_map_rank,
      processFollowers_length, processFollowers_map_username]

/-- Witness for C9 at `envA` with target "alice". -/
theorem follower_ranks_witness :
    envA.user_by_login "alice" = Except.ok userAlice ∧
    envA.available userAlice.id = Except.ok [f1, f2, f3] ∧
    ((get_followers envA "alice" 0 false false).results.map FollowerData.rank
       = List.range' 1 (get_followers envA "alice" 0 false false).summary.fetched_count ∧
     (get_followers envA "alice" 0 false false).results.length
       = (get_followers envA "alice" 0 false false).summary.fetched_count ∧
     (get_followers envA "alice" 0 false false).results.map FollowerData.username
       = (gather [f1, f2, f3] (fetch_limit 0)).map Follower.username) :=
  ⟨rfl, rfl, follower_ranks envA "alice" 0 false false userAlice [f1, f2, f3] rfl rfl⟩

/-- Claim C10: credential-file robustness — a line that is blank after
stripping, or that does not split into exactly three colon-separated fields,
is skipped without aborting (removing it does not change the processed
accounts), and the processed accounts are exactly the well-formed lines in
file order. -/
theorem credentials_file_robustness (pre post : List String) (bad : String)
    (h : py_strip bad = "" ∨ parseLine (py_strip bad) = none) :
    add_all_from_file (pre ++ bad :: post) = add_all_from_file (pre ++ post) ∧
    ∀ lines : List String,
      add_all_from_file lines
        = ((lines.map py_strip).filter (fun l => l != "")).filterMap
            (fun line => (parseLine line).map
              (fun t => (t.1, "auth_token=" ++ t.2.1 ++ "; ct0=" ++ t.2.2))) := by
  constructor
  · unfold add_all_from_file
    rw [List.map_append, List.map_append, List.map_cons,
        List.filter_append, List.filter_append, List.filter_cons]
    rcases h with h | h
    · simp [h, processLines_append]
    · by_cases he : py_strip bad = ""
      · simp [he, processLines_append]
      · have hb : (py_strip bad != "") = true := by simp [he]
        simp [hb, processLines_append, processLines, h]
  · intro lines
    unfold add_all_from_file
    rw [processLines_eq_filterMap]

/-- Witness for C10: the malformed line "x:y" (two fields) is skipped.  -/
theorem credentials_file_robustness_witness :
    parseLine (py_strip "x:y") = none ∧
    add_all_from_file (["a:b:c"] ++ "x:y" :: ["d:e:f"])
      = add_all_from_file (["a:b:c"] ++ ["d:e:f"]) :=
  ⟨by decide,
   (credentials_file_robustness ["a:b:c"] ["d:e:f"] "x:y" (Or.inr (by decide))).1⟩
